import Mathlib

/-!
Shallow embedding of `scripts/monitor.py` (miau Dev Monitor).

Lines of text are modelled as `List Char` (Python `str` restricted to its
character sequence; `.data` of a Lean string literal produces concrete
inputs).  Python's `str.strip` / `str.lower` are modelled on the ASCII
fragment, which covers every character the monitored log format and the
spec's examples use.  I/O-performing functions (`read_log_tail`,
`get_system_stats`, `handle_keypress`) take the outcome of their system
calls as an explicit parameter, mirroring the `try/except` structure of
the source.
-/

/-- A log line (or a whole text) as its character sequence. -/
abbrev Line := List Char

/-- Characters removed by Python `str.strip()` (ASCII whitespace set). -/
def pyIsSpace (c : Char) : Bool :=
  c = ' ' || c = '\t' || c = '\n' || c = '\r' || c = '\x0b' || c = '\x0c'

/-- Python `line.strip()`. -/
def pyStrip (l : Line) : Line :=
  ((l.dropWhile pyIsSpace).reverse.dropWhile pyIsSpace).reverse

/-- Python `line.lower()` (ASCII case mapping). -/
def pyLower (l : Line) : Line := l.map Char.toLower

/-- Python substring containment `needle in hay`. -/
def containsSub (needle hay : Line) : Bool :=
  hay.tails.any (fun t => needle.isPrefixOf t)

/-- monitor.py:158 — `"error" in line_lower or "panic" in line_lower or "fail" in line_lower`. -/
def isTrigger (l : Line) : Bool :=
  containsSub "error".data (pyLower l) || containsSub "panic".data (pyLower l) ||
    containsSub "fail".data (pyLower l)

/-- monitor.py:152 — `line_stripped.startswith("goroutine ") or line_stripped.startswith("runtime.")`. -/
def isMarker (l : Line) : Bool :=
  "goroutine ".data.isPrefixOf (pyStrip l) || "runtime.".data.isPrefixOf (pyStrip l)

/-- monitor.py:163-167 — the continuation predicate of the `elif in_error` branch. -/
def isCont (l : Line) : Bool :=
  "/".data.isPrefixOf (pyStrip l) || "main.".data.isPrefixOf (pyStrip l) ||
    "runtime.".data.isPrefixOf (pyStrip l) || (pyStrip l).isEmpty || l.contains '\t'

/-- One iteration of the `for line in lines` loop of `extract_last_error`
(monitor.py:147-171).  State is `(in_error, error_lines)`. -/
def step (s : Bool × List Line) (l : Line) : Bool × List Line :=
  if isMarker l then
    if s.1 then (s.1, s.2 ++ [l]) else s
  else if isTrigger l then (true, [l])
  else if s.1 then
    if isCont l then (true, s.2 ++ [l]) else (false, s.2)
  else s

/-- The condition under which, while `in_error`, a line is appended to the
current buffer as a continuation (read off the branches of monitor.py:152-168:
either the goroutine/runtime marker shortcut, or trigger-free and
continuation-shaped). -/
def contAccepted (l : Line) : Bool :=
  isMarker l || (!isTrigger l && isCont l)

/-- Python `text.split("\n")` (always non-empty; keeps empty pieces). -/
def splitLines : Line → List Line
  | [] => [[]]
  | c :: cs =>
    if c = '\n' then [] :: splitLines cs
    else
      match splitLines cs with
      | [] => [[c]]
      | r :: rs => (c :: r) :: rs

/-- The `error_lines` buffer left by the loop of `extract_last_error` on a
list of lines. -/
def extractLines (lines : List Line) : List Line :=
  (lines.foldl step (false, [])).2

/-- monitor.py:141-173 — `extract_last_error(log_content)`; the empty result
is the "not found" value, mirroring `... if error_lines else ""`. -/
def extract_last_error (text : Line) : Line :=
  let el := extractLines (splitLines text)
  if el.isEmpty then [] else List.intercalate ['\n'] el

/-- The found / not-found discrimination performed by
`"\n".join(error_lines) if error_lines else ""`: `none` models the falsy
empty result, `some` a present block. -/
def extractResult (text : Line) : Option (List Line) :=
  let el := extractLines (splitLines text)
  if el.isEmpty then none else some el

/-- The buffer contribution of a trigger-free suffix scanned from the
`in_error` state: lines are taken while marker- or continuation-shaped,
and capture stops at the first line that is neither. -/
def captureCont : List Line → List Line
  | [] => []
  | l :: ls =>
    if isMarker l then l :: captureCont ls
    else if isCont l then l :: captureCont ls
    else []

/-- monitor.py:32 — `MAX_LOG_LINES = 18`. -/
def MAX_LOG_LINES : Nat := 18

/-- monitor.py:124-130 — `read_log_tail(path, lines)`.  The file system is
the explicit argument: `none` models any `open`/read failure (the bare
`except` returns `[]`), `some ls` a readable file with lines `ls`;
`deque(f, maxlen=lines)` keeps the last `lines` lines in file order. -/
def read_log_tail (file : Option (List Line)) (maxLines : Nat) : List Line :=
  match file with
  | none => []
  | some ls => ls.drop (ls.length - maxLines)

/-- The two status globals of monitor.py:39-40
(`last_status_message`, `last_status_time`). -/
structure Status where
  last_status_message : Line
  last_status_time : ℚ
deriving DecidableEq

/-- monitor.py:360 — the display condition
`last_status_message and (time.time() - last_status_time) < 5`. -/
def statusVisible (st : Status) (now : ℚ) : Bool :=
  !st.last_status_message.isEmpty && decide (now - st.last_status_time < 5)

/-- monitor.py:31 — `ERROR_FILE = "/tmp/miau-last-error.txt"`. -/
def ERROR_FILE : Line := "/tmp/miau-last-error.txt".data

/-- monitor.py:190-196 — `save_error_to_file` returns `ERROR_FILE` on
success and `""` on any exception; the write outcome is the parameter. -/
def save_error_to_file (save_ok : Bool) : Line :=
  if save_ok then ERROR_FILE else []

/-- monitor.py:377-394 — `handle_keypress(key)`.  `now` models
`time.time()`, `log_content` the contents read by `read_full_log`
(empty on failure, exactly as the source returns `""`), `clip_ok` the
outcome of `copy_to_clipboard`, `save_ok` the outcome of the fallback
file write, and `st` the pair of status globals before the call. -/
def handle_keypress (key : Line) (now : ℚ) (log_content : Line)
    (clip_ok save_ok : Bool) (st : Status) : Status :=
  if key.map Char.toLower = "e".data then
    let error := extract_last_error log_content
    if !error.isEmpty then
      if clip_ok then ⟨"Erro copiado!".data, now⟩
      else ⟨"Erro salvo em ".data ++ save_error_to_file save_ok, now⟩
    else ⟨"Nenhum erro encontrado".data, now⟩
  else st

/-- monitor.py:85-109 — the record returned by `get_system_stats`. -/
structure SystemStats where
  cpu : ℚ
  mem_used : ℕ
  mem_total : ℕ
  mem_pct : ℚ
deriving DecidableEq

/-- monitor.py:109 — `{"cpu": 0, "mem_used": 0, "mem_total": 0, "mem_pct": 0}`. -/
def unknownStats : SystemStats := ⟨0, 0, 0, 0⟩

/-- monitor.py:85-109 — `get_system_stats()`.  The argument models the
outcome of the two subprocess queries and the parse of the `Mem:` line:
`none` is any exception or absent `Mem:` line (both fall through to the
zero dict), `some (cpu, total, used)` the parsed values, with
`total`/`used` natural numbers as printed by `free -m`.  When `total = 0`
the source's `(used / total) * 100` raises `ZeroDivisionError`, which the
bare `except` turns into the zero dict; that path is the `total = 0`
branch here. -/
def get_system_stats (q : Option (ℚ × ℕ × ℕ)) : SystemStats :=
  match q with
  | none => unknownStats
  | some (cpu, total, used) =>
    if total = 0 then unknownStats
    else ⟨cpu, used, total, ((used : ℚ) / (total : ℚ)) * 100⟩

/-- A non-marker trigger line resets the scanner to `(IN_ERROR, [l])` from
any state (monitor.py:158-160: the reset branch ignores the prior state). -/
theorem step_trigger (s : Bool × List Line) (l : Line)
    (hm : isMarker l = false) (ht : isTrigger l = true) :
    step s l = (true, [l]) := by
  simp [step, hm, ht]

/-- From the NORMAL state, trigger-free lines leave state and buffer
untouched. -/
theorem fold_normal : ∀ (xs : List Line) (b : List Line),
    (∀ l ∈ xs, isTrigger l = false) →
    List.foldl step (false, b) xs = (false, b) := by
  intro xs
  induction xs with
  | nil => intro b _; rfl
  | cons l ls ih =>
    intro b h
    have hl : isTrigger l = false := h l (List.mem_cons_self l ls)
    have hls : ∀ x ∈ ls, isTrigger x = false :=
      fun x hx => h x (List.mem_cons_of_mem l hx)
    have hstep : step (false, b) l = (false, b) := by
      by_cases hm : isMarker l
      · simp [step, hm]
      · simp [step, hm, hl]
    rw [List.foldl_cons, hstep, ih b hls]

/-- From the IN_ERROR state, a trigger-free suffix contributes exactly
`captureCont` to the buffer. -/
theorem fold_capture : ∀ (xs : List Line) (b : List Line),
    (∀ l ∈ xs, isTrigger l = false) →
    (List.foldl step (true, b) xs).2 = b ++ captureCont xs := by
  intro xs
  induction xs with
  | nil => intro b _; simp [captureCont]
  | cons l ls ih =>
    intro b h
    have hl : isTrigger l = false := h l (List.mem_cons_self l ls)
    have hls : ∀ x ∈ ls, isTrigger x = false :=
      fun x hx => h x (List.mem_cons_of_mem l hx)
    by_cases hm : isMarker l
    · have hstep : step (true, b) l = (true, b ++ [l]) := by simp [step, hm]
      rw [List.foldl_cons, hstep, ih (b ++ [l]) hls]
      simp [captureCont, hm]
    · by_cases hc : isCont l
      · have hstep : step (true, b) l = (true, b ++ [l]) := by
          simp [step, hm, hl, hc]
        rw [List.foldl_cons, hstep, ih (b ++ [l]) hls]
        simp [captureCont, hm, hc]
      · have hstep : step (true, b) l = (false, b) := by
          simp [step, hm, hl, hc]
        rw [List.foldl_cons, hstep, fold_normal ls b hls]
        simp [captureCont, hm, hc]

/-- From the IN_ERROR state, a block of trigger-free lines that are all
marker- or continuation-shaped is appended wholesale to the buffer. -/
theorem fold_accept : ∀ (xs : List Line) (b : List Line),
    (∀ l ∈ xs, isTrigger l = false ∧ (isMarker l || isCont l) = true) →
    List.foldl step (true, b) xs = (true, b ++ xs) := by
  intro xs
  induction xs with
  | nil => intro b _; simp
  | cons l ls ih =>
    intro b h
    have hl := h l (List.mem_cons_self l ls)
    have hls : ∀ x ∈ ls, isTrigger x = false ∧ (isMarker x || isCont x) = true :=
      fun x hx => h x (List.mem_cons_of_mem l hx)
    have hstep : step (true, b) l = (true, b ++ [l]) := by
      by_cases hm : isMarker l
      · simp [step, hm]
      · have hc : isCont l = true := by
          rcases hl with ⟨-, hor⟩
          simpa [hm] using hor
        simp [step, hm, hl.1, hc]
    rw [List.foldl_cons, hstep, ih (b ++ [l]) hls]
    simp

/-- The captured continuation lines form a leading segment of the suffix
they are taken from. -/
theorem captureCont_leads : ∀ xs : List Line, captureCont xs <+: xs := by
  intro xs
  induction xs with
  | nil => simp [captureCont]
  | cons l ls ih =>
    by_cases hm : isMarker l
    · obtain ⟨t, ht⟩ := ih
      exact ⟨t, by simp [captureCont, hm, ht]⟩
    · by_cases hc : isCont l
      · obtain ⟨t, ht⟩ := ih
        exact ⟨t, by simp [captureCont, hm, hc, ht]⟩
      · simp [captureCont, hm, hc]

/-- C1 counterexample: "goroutine 7 fail" is continuation-shaped in the
claim's sense (goroutine marker) and contains the trigger "fail", yet met
while IN_ERROR it extends the buffer instead of resetting it to that line
alone. -/
theorem c1_counterexample :
    isTrigger "goroutine 7 fail".data = true ∧
    isMarker "goroutine 7 fail".data = true ∧
    step (true, ["error: boom".data]) "goroutine 7 fail".data
      = (true, ["error: boom".data, "goroutine 7 fail".data]) ∧
    ¬ step (true, ["error: boom".data]) "goroutine 7 fail".data
        = (true, ["goroutine 7 fail".data]) := by
  decide

/-- C1 (amended): while IN_ERROR, a continuation-shaped line that contains
a trigger substring and whose stripped form does not start with
"goroutine " or "runtime." is treated as a fresh trigger and resets the
buffer to that line alone; in particular "/path/to/error_handler.go"
after an active block starts a new block at that line. -/
theorem c1_continuation_trigger_resets :
    (∀ (b : List Line) (l : Line),
      isTrigger l = true → isCont l = true → isMarker l = false →
      step (true, b) l = (true, [l])) ∧
    extract_last_error ("panic: boom\n/path/to/error_handler.go").data
      = "/path/to/error_handler.go".data := by
  constructor
  · intro b l ht _ hm
    exact step_trigger _ l hm ht
  · decide

/-- C1 witness: the amended theorem applied at the spec's concrete line. -/
theorem c1_witness :
    step (true, ["panic: boom".data]) "/path/to/error_handler.go".data
      = (true, ["/path/to/error_handler.go".data]) :=
  c1_continuation_trigger_resets.1 _ _ (by decide) (by decide) (by decide)

/-- C2: a trigger word inside a line that the extractor accepts as a
continuation while IN_ERROR is not re-evaluated as a new trigger: the
line extends the current (non-empty) capture buffer rather than
resetting it to that line alone. -/
theorem c2_continuation_no_retrigger :
    ∀ (b : List Line) (l : Line),
      isTrigger l = true → contAccepted l = true → b ≠ [] →
      step (true, b) l = (true, b ++ [l]) ∧ b ++ [l] ≠ [l] := by
  intro b l ht ha hb
  have hm : isMarker l = true := by
    by_cases hmm : isMarker l
    · exact hmm
    · simp [contAccepted, hmm, ht] at ha
  refine ⟨by simp [step, hm], ?_⟩
  intro h
  apply hb
  have hlen := congrArg List.length h
  simp at hlen
  exact hlen

/-- C2 witness: the trigger word "failed" inside the accepted goroutine
continuation line extends the block begun at "error x". -/
theorem c2_witness :
    step (true, ["error x".data]) "goroutine 2 failed".data
      = (true, ["error x".data] ++ ["goroutine 2 failed".data]) ∧
    ["error x".data] ++ ["goroutine 2 failed".data] ≠ ["goroutine 2 failed".data] :=
  c2_continuation_no_retrigger ["error x".data] "goroutine 2 failed".data
    (by decide) (by decide) (by decide)

/-- C3 counterexample: "goroutine panic" contains the trigger "panic", yet
met in NORMAL it is skipped by the marker shortcut — the extractor stays
in NORMAL with an untouched buffer, and the whole text yields the
not-found result instead of a block. -/
theorem c3_counterexample :
    isTrigger "goroutine panic".data = true ∧
    step (false, []) "goroutine panic".data = (false, []) ∧
    extract_last_error "goroutine panic".data = [] := by
  decide

/-- C3 (amended): in NORMAL, every trigger line whose stripped form does
not start with "goroutine " or "runtime." transitions the extractor to
IN_ERROR with the buffer reset to that line alone; marker lines bypass
the trigger check entirely and are skipped in NORMAL. -/
theorem c3_normal_trigger_starts_block :
    ∀ (b : List Line) (l : Line),
      (isTrigger l = true → isMarker l = false →
        step (false, b) l = (true, [l])) ∧
      (isMarker l = true → step (false, b) l = (false, b)) := by
  intro b l
  constructor
  · intro ht hm
    exact step_trigger _ l hm ht
  · intro hm
    simp [step, hm]

/-- C3 witness: the amended theorem at a concrete trigger line. -/
theorem c3_witness :
    step (false, []) "2024 ERROR db connection failed".data
      = (true, ["2024 ERROR db connection failed".data]) :=
  (c3_normal_trigger_starts_block [] "2024 ERROR db connection failed".data).1
    (by decide) (by decide)

/-- C4 counterexample: "error one" and "goroutine fail" are two trigger
lines separated only by the continuation-shaped line "\tat foo", yet the
returned block starts at the first trigger and contains every line of the
first block, because the second trigger is a goroutine-marker line that
bypasses the trigger check. -/
theorem c4_counterexample :
    isTrigger "error one".data = true ∧
    isTrigger "goroutine fail".data = true ∧
    isCont "\tat foo".data = true ∧ isTrigger "\tat foo".data = false ∧
    extractLines ["error one".data, "\tat foo".data, "goroutine fail".data]
      = ["error one".data, "\tat foo".data, "goroutine fail".data] ∧
    (extractLines ["error one".data, "\tat foo".data, "goroutine fail".data]).head?
      ≠ some "goroutine fail".data := by
  decide

/-- C4 (amended): for every log text containing two trigger lines
separated only by continuation-shaped lines, where the second trigger
line is not a goroutine/runtime marker line, the extractor returns the
block begun at the second trigger: the result is the second trigger line
followed by a leading segment of what follows it, so no line of the
first block appears. -/
theorem c4_most_recent_wins :
    ∀ (pre : List Line) (t1 : Line) (sep : List Line) (t2 : Line) (rest : List Line),
      (∀ l ∈ pre, isTrigger l = false) → isTrigger t1 = true →
      (∀ l ∈ sep, isTrigger l = false ∧ (isMarker l || isCont l) = true) →
      isTrigger t2 = true → isMarker t2 = false →
      (∀ l ∈ rest, isTrigger l = false) →
      extractLines (pre ++ t1 :: sep ++ t2 :: rest) = t2 :: captureCont rest ∧
        captureCont rest <+: rest := by
  intro pre t1 sep t2 rest _ _ _ ht2 hm2 hrest
  refine ⟨?_, captureCont_leads rest⟩
  unfold extractLines
  have hsplit : pre ++ t1 :: sep ++ t2 :: rest = (pre ++ t1 :: sep) ++ t2 :: rest := by
    simp
  rw [hsplit, List.foldl_append, List.foldl_cons,
    step_trigger _ t2 hm2 ht2, fold_capture rest [t2] hrest]
  simp

/-- C4 witness: the amended theorem at a concrete five-line log. -/
theorem c4_witness :
    extractLines ["info".data, "error a".data, "\tat x".data,
        "panic: b".data, "\tat y".data, "done".data]
      = "panic: b".data :: captureCont ["\tat y".data, "done".data] := by
  have h := c4_most_recent_wins ["info".data] "error a".data ["\tat x".data]
    "panic: b".data ["\tat y".data, "done".data]
    (by decide) (by decide) (by decide) (by decide) (by decide) (by decide)
  exact h.1

/-- C5 counterexample: "goroutine error" is the unique trigger line of the
text and is immediately followed by one continuation-shaped line, so the
claim demands a two-line block; the code skips the marker line in NORMAL
and returns the not-found result instead. -/
theorem c5_counterexample :
    isTrigger "goroutine error".data = true ∧
    isTrigger "\tat main.go:3".data = false ∧
    isCont "\tat main.go:3".data = true ∧
    extractLines ["goroutine error".data, "\tat main.go:3".data] = [] ∧
    extract_last_error ("goroutine error\n\tat main.go:3").data = [] := by
  decide

/-- C5 (amended): for every log text whose unique trigger line is not a
goroutine/runtime marker line and is followed immediately by k
continuation-shaped lines and then either nothing or a block-ending
line, the returned block is exactly the trigger line plus those k lines
in original order (1 + k lines); and on the spec's concrete five-line
scenario the extraction is exactly the three lines from
"2024 ERROR db connection failed" through "\tat main.run". -/
theorem c5_single_trigger_block :
    (∀ (pre : List Line) (t : Line) (conts rest : List Line),
      (∀ l ∈ pre, isTrigger l = false) →
      isTrigger t = true → isMarker t = false →
      (∀ l ∈ conts, isTrigger l = false ∧ (isMarker l || isCont l) = true) →
      (∀ l ∈ rest, isTrigger l = false) →
      (rest = [] ∨ (isMarker rest.headI = false ∧ isCont rest.headI = false)) →
      extractLines (pre ++ t :: conts ++ rest) = t :: conts ∧
        (t :: conts).length = 1 + conts.length) ∧
    extract_last_error
        ("2024 INFO starting\n2024 ERROR db connection failed\n\tat db.Connect\n\tat main.run\n2024 INFO retrying").data
      = ("2024 ERROR db connection failed\n\tat db.Connect\n\tat main.run").data := by
  constructor
  · intro pre t conts rest hpre ht hm hconts hrest hend
    refine ⟨?_, by simp [Nat.add_comm]⟩
    unfold extractLines
    have hsplit : pre ++ t :: conts ++ rest = pre ++ t :: (conts ++ rest) := by
      simp
    rw [hsplit, List.foldl_append, fold_normal pre [] hpre, List.foldl_cons,
      step_trigger _ t hm ht, List.foldl_append, fold_accept conts [t] hconts]
    cases rest with
    | nil => simp
    | cons r rs =>
      have hr : isTrigger r = false := hrest r (List.mem_cons_self r rs)
      have hrs : ∀ x ∈ rs, isTrigger x = false :=
        fun x hx => hrest x (List.mem_cons_of_mem r hx)
      rcases hend with hend | hend
      · exact absurd hend (by simp)
      · have hstep : step (true, [t] ++ conts) r = (false, [t] ++ conts) := by
          simp only [List.headI] at hend
          simp [step, hend.1, hend.2, hr]
        rw [List.foldl_cons, hstep, fold_normal rs ([t] ++ conts) hrs]
        rfl
  · decide

/-- C5 witness: the general part applied to the spec's five-line scenario. -/
theorem c5_witness :
    extractLines ["2024 INFO starting".data, "2024 ERROR db connection failed".data,
        "\tat db.Connect".data, "\tat main.run".data, "2024 INFO retrying".data]
      = ["2024 ERROR db connection failed".data,
          "\tat db.Connect".data, "\tat main.run".data] := by
  have h := c5_single_trigger_block.1 ["2024 INFO starting".data]
    "2024 ERROR db connection failed".data
    ["\tat db.Connect".data, "\tat main.run".data]
    ["2024 INFO retrying".data]
    (by decide) (by decide) (by decide) (by decide) (by decide)
    (Or.inr (by decide))
  exact h.1

/-- C6: a log text none of whose lines contains a trigger substring yields
the explicit not-found result (the falsy empty value, `none` under the
found/not-found discrimination), and a returned block is never empty. -/
theorem c6_no_trigger_not_found :
    (∀ text : Line, (∀ l ∈ splitLines text, isTrigger l = false) →
      extractResult text = none ∧ extract_last_error text = []) ∧
    (∀ (text : Line) (b : List Line), extractResult text = some b → b ≠ []) := by
  constructor
  · intro text h
    have he : extractLines (splitLines text) = [] := by
      unfold extractLines
      rw [fold_normal (splitLines text) [] h]
    constructor
    · simp only [extractResult, he]
      rfl
    · simp only [extract_last_error, he]
      rfl
  · intro text b hb
    simp only [extractResult] at hb
    by_cases he : (extractLines (splitLines text)).isEmpty
    · simp [he] at hb
    · simp [he] at hb
      rw [← hb]
      simpa using he

/-- C6 witness: a trigger-free log maps to the not-found result. -/
theorem c6_witness :
    extractResult "2024 INFO starting\n2024 INFO ready".data = none :=
  (c6_no_trigger_not_found.1 "2024 INFO starting\n2024 INFO ready".data (by decide)).1

/-- C7: for a readable file the tail is at most `maxLines` long and is a
suffix of the file's lines in their original order; a 5-line file with
`maxLines = 18` is returned whole, a 1000-line file yields exactly its
last 18 lines, and an unreadable file yields the empty sequence. -/
theorem c7_tail_bounds :
    (∀ (ls : List Line) (n : Nat),
      (read_log_tail (some ls) n).length = min n ls.length ∧
        read_log_tail (some ls) n <:+ ls) ∧
    (∀ ls : List Line, ls.length = 5 → read_log_tail (some ls) 18 = ls) ∧
    (∀ ls : List Line, ls.length = 1000 →
      read_log_tail (some ls) 18 = ls.drop 982 ∧
        (read_log_tail (some ls) 18).length = 18) ∧
    (∀ n : Nat, read_log_tail none n = []) := by
  refine ⟨?_, ?_, ?_, fun n => rfl⟩
  · intro ls n
    constructor
    · simp only [read_log_tail, List.length_drop]
      omega
    · exact ⟨ls.take (ls.length - n), List.take_append_drop _ _⟩
  · intro ls h
    simp [read_log_tail, h]
  · intro ls h
    constructor
    · simp [read_log_tail, h]
    · simp only [read_log_tail, List.length_drop, h]

/-- C7 witness: the 5-line and 1000-line cases at concrete files. -/
theorem c7_witness :
    read_log_tail (some (List.replicate 5 ([] : Line))) 18 = List.replicate 5 [] ∧
      (read_log_tail (some (List.replicate 1000 ([] : Line))) 18).length = 18 :=
  ⟨c7_tail_bounds.2.1 (List.replicate 5 []) (by rw [List.length_replicate]),
    (c7_tail_bounds.2.2.1 (List.replicate 1000 []) (by rw [List.length_replicate])).2⟩

/-- C8: once a (necessarily non-empty) status message is set, visibility
at render time `now` holds exactly when strictly less than 5 seconds
have elapsed since `createdAt`; the extract-error key produces a state
independent of the previous message and timestamp (full replacement, no
stacking); and every branch of the extract-error handler stamps the
current time and a non-empty message. -/
theorem c8_status_message :
    (∀ (st : Status) (now : ℚ), st.last_status_message ≠ [] →
      (statusVisible st now = true ↔ now - st.last_status_time < 5)) ∧
    (∀ (now : ℚ) (lc : Line) (c s : Bool) (st st' : Status),
      handle_keypress "e".data now lc c s st
        = handle_keypress "e".data now lc c s st') ∧
    (∀ (now : ℚ) (lc : Line) (c s : Bool) (st : Status),
      (handle_keypress "e".data now lc c s st).last_status_time = now ∧
      (handle_keypress "e".data now lc c s st).last_status_message ≠ []) := by
  have hkey : ("e".data.map Char.toLower = "e".data) := by decide
  refine ⟨?_, ?_, ?_⟩
  · intro st now h
    have hne : st.last_status_message.isEmpty = false := by
      cases hmsg : st.last_status_message with
      | nil => exact absurd hmsg h
      | cons a as => rfl
    simp [statusVisible, hne]
  · intro now lc c s st st'
    simp only [handle_keypress, hkey, if_true]
  · intro now lc c s st
    simp only [handle_keypress, hkey, if_true]
    constructor
    · split
      · split <;> rfl
      · rfl
    · split
      · split <;> simp
      · simp

/-- C8 witness: the visibility equivalence at a concrete set message and
render time, the replacement property at two distinct prior states set
at t = 0 and rendered after a set at t = 10, and the timestamping of a
concrete handler call. -/
theorem c8_witness :
    (statusVisible ⟨"Erro copiado!".data, 0⟩ 3 = true ↔ (3 : ℚ) - 0 < 5) ∧
    handle_keypress "e".data 10 [] true true ⟨"Erro copiado!".data, 0⟩
      = handle_keypress "e".data 10 [] true true ⟨[], 0⟩ ∧
    (handle_keypress "e".data 10 [] true true ⟨"Erro copiado!".data, 0⟩).last_status_time
      = 10 :=
  ⟨c8_status_message.1 ⟨"Erro copiado!".data, 0⟩ 3 (by decide),
    c8_status_message.2.1 10 [] true true ⟨"Erro copiado!".data, 0⟩ ⟨[], 0⟩,
    (c8_status_message.2.2 10 [] true true ⟨"Erro copiado!".data, 0⟩).1⟩

/-- C9: `get_system_stats` is a total function of the query outcome (the
source's bare `except` catches every failure, including the
`ZeroDivisionError` raised by `(used / total) * 100` when the reported
total is zero), and every sample it returns is either the all-zero
unknown sample or reports a strictly positive total memory; in
particular a reported total of zero yields the unknown sample, never a
division artefact. -/
theorem c9_system_stats_safe :
    (∀ q : Option (ℚ × ℕ × ℕ),
      get_system_stats q = unknownStats ∨ 0 < (get_system_stats q).mem_total) ∧
    (∀ (cpu : ℚ) (used : ℕ), get_system_stats (some (cpu, 0, used)) = unknownStats) := by
  constructor
  · intro q
    match q with
    | none => exact Or.inl rfl
    | some (cpu, total, used) =>
      by_cases h : total = 0
      · exact Or.inl (by simp [get_system_stats, h])
      · refine Or.inr ?_
        simp only [get_system_stats, if_neg h]
        exact Nat.pos_of_ne_zero h
  · intro cpu used
    rfl

/-- C10: the extract-error key is matched case-insensitively, so 'E'
triggers exactly the action of 'e'; every key whose lowercase form is
not "e" leaves the status state untouched. -/
theorem c10_keypress_frame :
    (∀ (now : ℚ) (lc : Line) (c s : Bool) (st : Status),
      handle_keypress "E".data now lc c s st
        = handle_keypress "e".data now lc c s st) ∧
    (∀ (key : Line) (now : ℚ) (lc : Line) (c s : Bool) (st : Status),
      key.map Char.toLower ≠ "e".data →
      handle_keypress key now lc c s st = st) := by
  have hE : ("E".data.map Char.toLower = "e".data) := by decide
  have he : ("e".data.map Char.toLower = "e".data) := by decide
  constructor
  · intro now lc c s st
    simp only [handle_keypress, hE, he, if_true]
  · intro key now lc c s st h
    simp only [handle_keypress, if_neg h]

/-- C10 witness: an unrecognized key is a no-op on a concrete state. -/
theorem c10_witness :
    handle_keypress "x".data 0 [] true true ⟨"Erro copiado!".data, 0⟩
      = ⟨"Erro copiado!".data, 0⟩ :=
  c10_keypress_frame.2 "x".data 0 [] true true ⟨"Erro copiado!".data, 0⟩ (by decide)
